import Mathlib

/-!
Verification of the dexcom_readings poll loop (src/dexcom_readings.py).

The embedding models the core loop of `main` together with its helpers
`write_to_csv` and `upload_to_nightscout`:

* UTC instants (Python `datetime.datetime` values) are modelled as `Int`;
  only their total order and identity matter to the program logic.  The
  injective ISO-8601 rendering `isoformat()` is modelled by the instant
  itself.
* The module-level mutable `last_known_glucose_timestamp` is threaded as an
  explicit `Option Int` state value.
* One iteration of the `while True:` body is `tick`; the observable actions
  of an iteration (calling `upload_to_nightscout`, performing the HTTP POST,
  appending the CSV row) are collected in order in an event list.
* The HTTP transport (`requests.post` plus `raise_for_status`) is a
  parameter `post : HttpRequest → Except String Nat` returning either a
  transport error or a status code; `raise_for_status` raises exactly for
  status codes in [400, 600).
-/

/-- A glucose reading as produced by `pydexcom` and consumed by `main`:
`value`, `datetime` (timestamp), `trend_description`, `trend_arrow`. -/
structure Reading where
  value : Int
  timestamp : Int
  trend_description : String
  trend_arrow : String
deriving DecidableEq, Repr

/-- The six-field row built at lines 181-188 of dexcom_readings.py:
`[check_timestamp_utc, new_reading_received, glucose_value_to_log,
glucose_timestamp_to_log, trend_description_to_log, trend_arrow_to_log]`,
with `None` for absent fields. -/
structure LogRecord where
  check_timestamp_utc : Int
  new_reading_received : Bool
  glucose_value : Option Int
  glucose_timestamp : Option Int
  trend_description : Option String
  trend_arrow : Option String
deriving DecidableEq, Repr

/-- A Nightscout entry as built in `upload_to_nightscout` (lines 94-99). -/
structure Entry where
  dateString : Int
  sgv : Int
  direction : String
  type : String
deriving DecidableEq, Repr

/-- The outbound HTTP POST request built in `upload_to_nightscout`
(lines 101-110): url, headers, JSON body (a list of entries). -/
structure HttpRequest where
  url : String
  headers : List (String × String)
  body : List Entry
deriving DecidableEq, Repr

/-- The Nightscout configuration read from the environment:
`NIGHTSCOUT_URL` and `NIGHTSCOUT_API_SECRET`; `none` models an unset
environment variable. -/
structure NSConfig where
  nightscout_url : Option String
  nightscout_api_secret : Option String
deriving DecidableEq, Repr

/-- Python truthiness of an optional string: `not x` is true when the
variable is unset (`None`) or the empty string. -/
def falsyStr : Option String → Bool
  | none => true
  | some s => s.isEmpty

/-- Outcome of one `upload_to_nightscout` call, as classified by the spec:
skipped (not configured), success, or delivery failure (non-2xx status or
transport error, both swallowed by the `except` clauses at lines 113-116). -/
inductive ForwardResult where
  | skippedNotConfigured
  | success
  | deliveryFailure
deriving DecidableEq, Repr

/-- Observable actions of one loop iteration, in program order. -/
inductive Event where
  | forwardCall (value : Int) (timestamp : Int) (arrow : String)
  | netPost (req : HttpRequest)
  | append (row : LogRecord)
deriving DecidableEq, Repr

/-- Python `s.rstrip('/')`: remove every trailing `'/'`. -/
def rstripSlashes (s : String) : String :=
  String.mk ((s.data.reverse.dropWhile (fun c => c == '/')).reverse)

/-- The URL built at line 101: `NIGHTSCOUT_URL.rstrip('/') + "/api/v1/entries"`. -/
def buildUrl (ns_url : String) : String :=
  rstripSlashes ns_url ++ "/api/v1/entries"

/-- A run of `k` slash characters, for describing URLs that differ only in
trailing slashes. -/
def slashes (k : Nat) : String :=
  String.mk (List.replicate k '/')

/-- `upload_to_nightscout(value, timestamp_utc, trend_arrow)` (lines 82-116).
Returns the classified outcome plus the list of network actions performed
(empty when not configured, exactly one POST otherwise).  The transport is
the `post` parameter; `raise_for_status` raises for statuses in [400, 600)
and every exception is caught, yielding `deliveryFailure`. -/
def upload_to_nightscout (cfg : NSConfig) (post : HttpRequest → Except String Nat)
    (value : Int) (timestamp_utc : Int) (trend_arrow : String) :
    ForwardResult × List Event :=
  if falsyStr cfg.nightscout_url || falsyStr cfg.nightscout_api_secret then
    (ForwardResult.skippedNotConfigured, [])
  else
    let date_string := timestamp_utc
    let direction := trend_arrow
    let entry : Entry :=
      { dateString := date_string, sgv := value, direction := direction, type := "sgv" }
    let url := buildUrl (cfg.nightscout_url.getD "")
    let headers := [("api-secret", cfg.nightscout_api_secret.getD ""),
                    ("Content-Type", "application/json")]
    let req : HttpRequest := { url := url, headers := headers, body := [entry] }
    match post req with
    | Except.ok status =>
        if 400 ≤ status ∧ status < 600 then
          (ForwardResult.deliveryFailure, [Event.netPost req])
        else
          (ForwardResult.success, [Event.netPost req])
    | Except.error _ => (ForwardResult.deliveryFailure, [Event.netPost req])

/-- The novelty test at lines 151-152:
`last_known_glucose_timestamp is None or current_glucose_datetime > last_known_glucose_timestamp`. -/
def isNewReading (current_glucose_datetime : Int)
    (last_known_glucose_timestamp : Option Int) : Bool :=
  match last_known_glucose_timestamp with
  | none => true
  | some t => decide (t < current_glucose_datetime)

/-- The DedupGate contract of spec section 4.1, as the inline code at
lines 148-155: `decide(candidate, state) -> (accepted, new_state)`. -/
def dedupDecide (candidate : Reading) (state : Option Int) : Bool × Option Int :=
  if isNewReading candidate.timestamp state then
    (true, some candidate.timestamp)
  else
    (false, state)

/-- Result of one loop iteration: the updated
`last_known_glucose_timestamp`, the row passed to `write_to_csv`, the
ordered events, the `new_reading_received` flag, and the forwarder outcome
(`none` when `upload_to_nightscout` was not called). -/
structure TickResult where
  state : Option Int
  row : LogRecord
  events : List Event
  new_reading_received : Bool
  forwardResult : Option ForwardResult
deriving DecidableEq, Repr

/-- The empty row logged on fetch failure or rejection. -/
def emptyRow (check_timestamp_utc : Int) : LogRecord :=
  { check_timestamp_utc := check_timestamp_utc, new_reading_received := false,
    glucose_value := none, glucose_timestamp := none,
    trend_description := none, trend_arrow := none }

/-- One iteration of the `while True:` body of `main` (lines 135-191).
`current_bg` is the result of `get_latest_glucose_reading` (`none` on fetch
failure).  On acceptance the state is updated (line 155), then
`upload_to_nightscout` is called (line 167), and finally `write_to_csv`
appends the row (line 189); the events appear in that program order. -/
def tick (cfg : NSConfig) (post : HttpRequest → Except String Nat)
    (check_timestamp_utc : Int) (current_bg : Option Reading)
    (last_known_glucose_timestamp : Option Int) : TickResult :=
  match current_bg with
  | some bg =>
      let current_glucose_datetime := bg.timestamp
      if isNewReading current_glucose_datetime last_known_glucose_timestamp then
        let row : LogRecord :=
          { check_timestamp_utc := check_timestamp_utc,
            new_reading_received := true,
            glucose_value := some bg.value,
            glucose_timestamp := some current_glucose_datetime,
            trend_description := some bg.trend_description,
            trend_arrow := some bg.trend_arrow }
        let fwd := upload_to_nightscout cfg post bg.value current_glucose_datetime
          bg.trend_arrow
        { state := some current_glucose_datetime,
          row := row,
          events := Event.forwardCall bg.value current_glucose_datetime bg.trend_arrow ::
            fwd.2 ++ [Event.append row],
          new_reading_received := true,
          forwardResult := some fwd.1 }
      else
        let row := emptyRow check_timestamp_utc
        { state := last_known_glucose_timestamp, row := row,
          events := [Event.append row],
          new_reading_received := false, forwardResult := none }
  | none =>
      let row := emptyRow check_timestamp_utc
      { state := last_known_glucose_timestamp, row := row,
        events := [Event.append row],
        new_reading_received := false, forwardResult := none }

/-- The CSV header row (lines 25-28). -/
def CSV_HEADERS : List String :=
  ["check_timestamp_utc", "new_reading_received", "glucose_value_mgdl",
   "glucose_timestamp_utc", "trend_description", "trend_arrow"]

/-- `write_to_csv(data_row)` (lines 73-80) acting on the log file, modelled
as `Option (List (List String))` (`none` = the file does not exist).  Opening
in append mode creates the file; the header is written first exactly when
`os.path.isfile` was false.  Returns the new file contents and whether the
header row was written on this call. -/
def write_to_csv (file : Option (List (List String))) (data_row : List String) :
    List (List String) × Bool :=
  let file_exists := file.isSome
  let contents := file.getD []
  if file_exists then
    (contents ++ [data_row], false)
  else
    (contents ++ [CSV_HEADERS, data_row], true)

/-- A sequence of `write_to_csv` calls on the same file; returns the final
file contents and how many of the calls wrote a header row. -/
def writeRun (file : Option (List (List String))) : List (List String) → Option (List (List String)) × Nat
  | [] => (file, 0)
  | r :: rs =>
      let step := write_to_csv file r
      let rest := writeRun (some step.1) rs
      (rest.1, (if step.2 then 1 else 0) + rest.2)

/-- Input to one loop iteration for whole-run reasoning: the tick's
`check_timestamp_utc`, the fetch result, and whether the `write_to_csv`
call of this tick succeeds (`false` models `open`/`write` raising an
`OSError` on this tick). -/
structure TickInput where
  check_time : Int
  fetched : Option Reading
  appendOk : Bool
deriving DecidableEq, Repr

/-- How a finite run of the loop ended: all scheduled ticks ran, or an
uncaught exception from `write_to_csv` terminated the loop. -/
inductive RunOutcome where
  | ranAll
  | crashed
deriving DecidableEq, Repr

/-- Result of a finite run: final dedup state, the rows actually appended
to the log, how many ticks began executing, and how the run ended. -/
structure RunResult where
  state : Option Int
  appended : List LogRecord
  ticksStarted : Nat
  outcome : RunOutcome
deriving DecidableEq, Repr

/-- A finite run of the `while True:` loop of `main` over a schedule of
tick inputs.  `write_to_csv` (line 189) is called with no surrounding
`try`/`except`, so when it raises (`appendOk = false`) the exception
propagates out of `main` and the loop stops: the row is lost and no later
tick runs.  The dedup-state update and the forward happen before the
append, so they are in effect even on the crashing tick. -/
def runTicks (cfg : NSConfig) (post : HttpRequest → Except String Nat)
    (st : Option Int) : List TickInput → RunResult
  | [] => { state := st, appended := [], ticksStarted := 0, outcome := RunOutcome.ranAll }
  | x :: xs =>
      let r := tick cfg post x.check_time x.fetched st
      if x.appendOk then
        let rest := runTicks cfg post r.state xs
        { state := rest.state, appended := r.row :: rest.appended,
          ticksStarted := rest.ticksStarted + 1, outcome := rest.outcome }
      else
        { state := r.state, appended := [], ticksStarted := 1,
          outcome := RunOutcome.crashed }

/-- The successive values of `last_known_glucose_timestamp` after each tick
of a run (the appends all succeeding). -/
def stateTrace (cfg : NSConfig) (post : HttpRequest → Except String Nat)
    (st : Option Int) : List (Int × Option Reading) → List (Option Int)
  | [] => []
  | x :: xs =>
      let st2 := (tick cfg post x.1 x.2 st).state
      st2 :: stateTrace cfg post st2 xs

/-- Order on dedup states: `none` (no reading accepted yet) precedes
everything; accepted timestamps are compared as instants. -/
def stLE : Option Int → Option Int → Prop
  | none, _ => True
  | some _, none => False
  | some a, some b => a ≤ b

instance : ∀ s t, Decidable (stLE s t) := fun s t =>
  match s, t with
  | none, _ => inferInstanceAs (Decidable True)
  | some _, none => inferInstanceAs (Decidable False)
  | some a, some b => inferInstanceAs (Decidable (a ≤ b))

/-- Predicate selecting the append events of a trace. -/
def isAppendEvent : Event → Bool
  | Event.append _ => true
  | _ => false

/-- Predicate selecting the forwarder-invocation events of a trace. -/
def isForwardCall : Event → Bool
  | Event.forwardCall _ _ _ => true
  | _ => false

/-- Some append event of the trace occurs strictly before some
forwarder-invocation event (the ordering the spec asserts for the tick's
record and the forwarding attempt). -/
def appendBeforeForward (evs : List Event) : Prop :=
  ∃ i j : Fin evs.length, (i : Nat) < (j : Nat) ∧
    isAppendEvent (evs.get i) = true ∧ isForwardCall (evs.get j) = true

instance (evs : List Event) : Decidable (appendBeforeForward evs) := by
  unfold appendBeforeForward
  infer_instance

/-- A concrete accepted tick with a configured sink and a failing transport,
used to examine the order of the tick's observable actions. -/
def tickFailingForward : TickResult :=
  tick { nightscout_url := some "https://ns.example.org",
         nightscout_api_secret := some "secret123" }
    (fun _ => Except.error "connection refused") 10
    (some { value := 120, timestamp := 5, trend_description := "Flat",
            trend_arrow := "F" }) none

/-! ### Helper lemmas -/

theorem tick_fetch_failure (cfg : NSConfig) (post : HttpRequest → Except String Nat)
    (ct : Int) (st : Option Int) :
    tick cfg post ct none st =
      { state := st, row := emptyRow ct, events := [Event.append (emptyRow ct)],
        new_reading_received := false, forwardResult := none } := rfl

theorem tick_accepted (cfg : NSConfig) (post : HttpRequest → Except String Nat)
    (ct : Int) (bg : Reading) (st : Option Int)
    (h : isNewReading bg.timestamp st = true) :
    tick cfg post ct (some bg) st =
      { state := some bg.timestamp,
        row := { check_timestamp_utc := ct, new_reading_received := true,
                 glucose_value := some bg.value, glucose_timestamp := some bg.timestamp,
                 trend_description := some bg.trend_description,
                 trend_arrow := some bg.trend_arrow },
        events := Event.forwardCall bg.value bg.timestamp bg.trend_arrow ::
          (upload_to_nightscout cfg post bg.value bg.timestamp bg.trend_arrow).2 ++
          [Event.append
            { check_timestamp_utc := ct, new_reading_received := true,
              glucose_value := some bg.value, glucose_timestamp := some bg.timestamp,
              trend_description := some bg.trend_description,
              trend_arrow := some bg.trend_arrow }],
        new_reading_received := true,
        forwardResult := some (upload_to_nightscout cfg post bg.value bg.timestamp
          bg.trend_arrow).1 } := by
  simp only [tick, h, if_true]

theorem tick_rejected (cfg : NSConfig) (post : HttpRequest → Except String Nat)
    (ct : Int) (bg : Reading) (st : Option Int)
    (h : isNewReading bg.timestamp st = false) :
    tick cfg post ct (some bg) st =
      { state := st, row := emptyRow ct, events := [Event.append (emptyRow ct)],
        new_reading_received := false, forwardResult := none } := by
  simp only [tick, h, Bool.false_eq_true, if_false]

theorem upload_events_cases (cfg : NSConfig) (post : HttpRequest → Except String Nat)
    (v t : Int) (a : String) :
    (upload_to_nightscout cfg post v t a).2 = [] ∨
    ∃ req, (upload_to_nightscout cfg post v t a).2 = [Event.netPost req] := by
  unfold upload_to_nightscout
  split
  · exact Or.inl rfl
  · refine Or.inr ?_
    dsimp only
    split
    · split
      · exact ⟨_, rfl⟩
      · exact ⟨_, rfl⟩
    · exact ⟨_, rfl⟩

theorem upload_events_filter_append (cfg : NSConfig)
    (post : HttpRequest → Except String Nat) (v t : Int) (a : String) :
    (upload_to_nightscout cfg post v t a).2.filter isAppendEvent = [] := by
  rcases upload_events_cases cfg post v t a with h | ⟨req, h⟩ <;>
    simp [h, isAppendEvent]

theorem upload_events_filter_forward (cfg : NSConfig)
    (post : HttpRequest → Except String Nat) (v t : Int) (a : String) :
    (upload_to_nightscout cfg post v t a).2.filter isForwardCall = [] := by
  rcases upload_events_cases cfg post v t a with h | ⟨req, h⟩ <;>
    simp [h, isForwardCall]

theorem stLE_refl (s : Option Int) : stLE s s := by
  cases s <;> simp [stLE]

theorem stLE_trans : ∀ {a b c : Option Int}, stLE a b → stLE b c → stLE a c
  | none, _, _, _, _ => trivial
  | some _, none, _, h, _ => absurd h (by simp [stLE])
  | some _, some _, none, _, h => absurd h (by simp [stLE])
  | some _, some _, some _, h1, h2 => le_trans h1 h2

instance : Trans stLE stLE stLE where
  trans := stLE_trans

theorem tick_state_mono (cfg : NSConfig) (post : HttpRequest → Except String Nat)
    (ct : Int) (fetched : Option Reading) (st : Option Int) :
    stLE st (tick cfg post ct fetched st).state := by
  match fetched with
  | none => rw [tick_fetch_failure]; exact stLE_refl st
  | some bg =>
      by_cases h : isNewReading bg.timestamp st = true
      · rw [tick_accepted cfg post ct bg st h]
        match st, h with
        | none, _ => trivial
        | some t, h =>
            simp only [isNewReading, decide_eq_true_eq] at h
            exact le_of_lt h
      · rw [tick_rejected cfg post ct bg st (by simpa using h)]
        exact stLE_refl st

theorem stateTrace_pairwise (cfg : NSConfig) (post : HttpRequest → Except String Nat) :
    ∀ (inputs : List (Int × Option Reading)) (st : Option Int),
      List.Pairwise stLE (st :: stateTrace cfg post st inputs)
  | [], st => by simp [stateTrace]
  | x :: xs, st => by
      have hmono := tick_state_mono cfg post x.1 x.2 st
      have ih := stateTrace_pairwise cfg post xs (tick cfg post x.1 x.2 st).state
      simp only [stateTrace]
      refine List.Pairwise.cons ?_ ih
      intro y hy
      rcases List.mem_cons.mp hy with rfl | hy2
      · exact hmono
      · exact stLE_trans hmono (List.rel_of_pairwise_cons ih hy2)

/-! ### Claims -/

/-- C1: DedupGate decision: a candidate reading is accepted iff the last
accepted timestamp is absent or the candidate's timestamp is strictly
greater; a candidate with timestamp equal to or earlier than the last
accepted timestamp is rejected. -/
theorem C1_dedup_decision (candidate : Reading) (state : Option Int) :
    ((dedupDecide candidate state).1 = true ↔
      state = none ∨ ∃ t, state = some t ∧ t < candidate.timestamp) ∧
    ((dedupDecide candidate state).1 = false ↔
      ∃ t, state = some t ∧ candidate.timestamp ≤ t) := by
  cases state with
  | none => simp [dedupDecide, isNewReading]
  | some t =>
      by_cases h : t < candidate.timestamp <;>
        (simp [dedupDecide, isNewReading, h]; all_goals omega)

/-- C2: DedupState invariant: over every sequence of fetch results the
last-accepted timestamp is monotonically non-decreasing; on acceptance it
becomes the candidate's timestamp, and on rejection (or fetch failure) the
state is unchanged. -/
theorem C2_state_invariant :
    (∀ (cfg : NSConfig) (post : HttpRequest → Except String Nat)
       (st : Option Int) (inputs : List (Int × Option Reading)),
       List.Pairwise stLE (st :: stateTrace cfg post st inputs)) ∧
    (∀ (cfg : NSConfig) (post : HttpRequest → Except String Nat)
       (ct : Int) (bg : Reading) (st : Option Int),
       (tick cfg post ct (some bg) st).new_reading_received = true →
       (tick cfg post ct (some bg) st).state = some bg.timestamp) ∧
    (∀ (cfg : NSConfig) (post : HttpRequest → Except String Nat)
       (ct : Int) (fetched : Option Reading) (st : Option Int),
       (tick cfg post ct fetched st).new_reading_received = false →
       (tick cfg post ct fetched st).state = st) := by
  refine ⟨fun cfg post st inputs => stateTrace_pairwise cfg post inputs st, ?_, ?_⟩
  · intro cfg post ct bg st hacc
    by_cases h : isNewReading bg.timestamp st = true
    · rw [tick_accepted cfg post ct bg st h]
    · rw [tick_rejected cfg post ct bg st (by simpa using h)] at hacc
      simp at hacc
  · intro cfg post ct fetched st hrej
    match fetched with
    | none => rw [tick_fetch_failure]
    | some bg =>
        by_cases h : isNewReading bg.timestamp st = true
        · rw [tick_accepted cfg post ct bg st h] at hrej
          simp at hrej
        · rw [tick_rejected cfg post ct bg st (by simpa using h)]

/-- C2 witness: on the first tick a fetched reading with timestamp 5 is
accepted and the state becomes `some 5`; a repeat of the same timestamp is
rejected and leaves the state unchanged. -/
theorem C2_state_invariant_witness :
    (tick { nightscout_url := none, nightscout_api_secret := none }
      (fun _ => Except.ok 200) 0
      (some { value := 120, timestamp := 5, trend_description := "Flat",
              trend_arrow := "F" }) none).state = some 5 ∧
    (tick { nightscout_url := none, nightscout_api_secret := none }
      (fun _ => Except.ok 200) 1
      (some { value := 120, timestamp := 5, trend_description := "Flat",
              trend_arrow := "F" }) (some 5)).state = some 5 := by
  constructor
  · exact C2_state_invariant.2.1
      { nightscout_url := none, nightscout_api_secret := none }
      (fun _ => Except.ok 200) 0
      { value := 120, timestamp := 5, trend_description := "Flat", trend_arrow := "F" }
      none (by decide)
  · exact C2_state_invariant.2.2
      { nightscout_url := none, nightscout_api_secret := none }
      (fun _ => Except.ok 200) 1
      (some { value := 120, timestamp := 5, trend_description := "Flat",
              trend_arrow := "F" }) (some 5) (by decide)

/-- C3: every tick appends exactly one LogRecord (one six-field row) to the
log, whatever the fetch result, the dedup decision, and the forward
outcome. -/
theorem C3_one_append_per_tick (cfg : NSConfig)
    (post : HttpRequest → Except String Nat) (ct : Int)
    (fetched : Option Reading) (st : Option Int) :
    (tick cfg post ct fetched st).events.filter isAppendEvent =
      [Event.append (tick cfg post ct fetched st).row] := by
  match fetched with
  | none => rw [tick_fetch_failure]; simp [isAppendEvent]
  | some bg =>
      by_cases h : isNewReading bg.timestamp st = true
      · rw [tick_accepted cfg post ct bg st h]
        simp [List.filter_append, upload_events_filter_append, isAppendEvent]
      · rw [tick_rejected cfg post ct bg st (by simpa using h)]
        simp [isAppendEvent]

/-- C4 counterexample: a schedule of two ticks whose first `write_to_csv`
call raises.  The loop does not proceed to the next tick: the run crashes
after one tick, refuting "the loop proceeds to the next tick regardless"
(there is no `try`/`except` around `write_to_csv` in `main`). -/
theorem C4_counterexample :
    (runTicks { nightscout_url := none, nightscout_api_secret := none }
        (fun _ => Except.ok 200) none
        [{ check_time := 0, fetched := none, appendOk := false },
         { check_time := 1, fetched := none, appendOk := true }]).outcome =
      RunOutcome.crashed ∧
    (runTicks { nightscout_url := none, nightscout_api_secret := none }
        (fun _ => Except.ok 200) none
        [{ check_time := 0, fetched := none, appendOk := false },
         { check_time := 1, fetched := none, appendOk := true }]).ticksStarted = 1 ∧
    ([{ check_time := 0, fetched := none, appendOk := false },
      { check_time := 1, fetched := none, appendOk := true }] :
        List TickInput).length = 2 := by decide

/-- C4 (amended): an IOFailure raised during the Recorder's append is not
caught by the poll loop: the exception propagates out of `main`, the run
ends crashed on the failing tick, and no later tick runs. -/
theorem C4_append_failure_stops_loop (cfg : NSConfig)
    (post : HttpRequest → Except String Nat) (st : Option Int)
    (pre : List TickInput) (x : TickInput) (xs : List TickInput)
    (hpre : ∀ y ∈ pre, y.appendOk = true) (hx : x.appendOk = false) :
    (runTicks cfg post st (pre ++ x :: xs)).outcome = RunOutcome.crashed ∧
    (runTicks cfg post st (pre ++ x :: xs)).ticksStarted = pre.length + 1 := by
  induction pre generalizing st with
  | nil => simp [runTicks, hx]
  | cons y p ih =>
      have hy : y.appendOk = true := hpre y (List.mem_cons_self y p)
      have ih2 := ih (tick cfg post y.check_time y.fetched st).state
        (fun z hz => hpre z (List.mem_cons_of_mem y hz))
      simp only [List.cons_append, runTicks, hy, if_true]
      exact ⟨ih2.1, by simp [ih2.2]⟩

/-- C4 witness: a single tick whose append fails crashes the run and counts
one started tick. -/
theorem C4_append_failure_stops_loop_witness :
    (runTicks { nightscout_url := none, nightscout_api_secret := none }
        (fun _ => Except.ok 200) none
        ([] ++ ({ check_time := 0, fetched := none, appendOk := false } : TickInput) ::
          [])).outcome = RunOutcome.crashed ∧
    (runTicks { nightscout_url := none, nightscout_api_secret := none }
        (fun _ => Except.ok 200) none
        ([] ++ ({ check_time := 0, fetched := none, appendOk := false } : TickInput) ::
          [])).ticksStarted = List.length ([] : List TickInput) + 1 :=
  C4_append_failure_stops_loop
    { nightscout_url := none, nightscout_api_secret := none }
    (fun _ => Except.ok 200) none []
    { check_time := 0, fetched := none, appendOk := false } []
    (fun y hy => absurd hy (List.not_mem_nil y)) rfl

/-- C5: the Forwarder is invoked iff the tick's decision was accepted;
on acceptance it is called exactly once with the accepted reading's value,
timestamp and trend arrow, and it is never called on rejection or fetch
failure. -/
theorem C5_forward_iff_accepted (cfg : NSConfig)
    (post : HttpRequest → Except String Nat) (ct : Int)
    (fetched : Option Reading) (st : Option Int) :
    ((tick cfg post ct fetched st).new_reading_received = true ↔
      ∃ bg, fetched = some bg ∧ isNewReading bg.timestamp st = true) ∧
    (∀ bg, fetched = some bg →
      (tick cfg post ct fetched st).new_reading_received = true →
      (tick cfg post ct fetched st).events.filter isForwardCall =
        [Event.forwardCall bg.value bg.timestamp bg.trend_arrow]) ∧
    ((tick cfg post ct fetched st).new_reading_received = false →
      (tick cfg post ct fetched st).events.filter isForwardCall = []) := by
  match fetched with
  | none =>
      rw [tick_fetch_failure]
      refine ⟨by simp, ?_, by simp [isForwardCall]⟩
      intro bg heq
      exact absurd heq (by simp)
  | some bg =>
      by_cases h : isNewReading bg.timestamp st = true
      · rw [tick_accepted cfg post ct bg st h]
        refine ⟨by simp [h], ?_, by simp⟩
        intro bg2 heq _
        cases heq
        simp [List.filter_append, upload_events_filter_forward, isForwardCall]
      · rw [tick_rejected cfg post ct bg st (by simpa using h)]
        refine ⟨by simp [h], ?_, by simp [isForwardCall]⟩
        intro bg2 heq hacc
        cases heq
        exact absurd hacc (by simp)

/-- C5 witness: on a fresh state the fetched reading is accepted and the
forwarder is called once with its fields; a repeat of the same timestamp is
rejected and the forwarder is not called. -/
theorem C5_forward_iff_accepted_witness :
    (tick { nightscout_url := none, nightscout_api_secret := none }
      (fun _ => Except.ok 200) 0
      (some { value := 120, timestamp := 5, trend_description := "Flat",
              trend_arrow := "F" }) none).events.filter isForwardCall =
      [Event.forwardCall 120 5 "F"] ∧
    (tick { nightscout_url := none, nightscout_api_secret := none }
      (fun _ => Except.ok 200) 1
      (some { value := 120, timestamp := 5, trend_description := "Flat",
              trend_arrow := "F" }) (some 5)).events.filter isForwardCall = [] := by
  constructor
  · exact (C5_forward_iff_accepted
      { nightscout_url := none, nightscout_api_secret := none }
      (fun _ => Except.ok 200) 0
      (some { value := 120, timestamp := 5, trend_description := "Flat",
              trend_arrow := "F" }) none).2.1
      { value := 120, timestamp := 5, trend_description := "Flat", trend_arrow := "F" }
      rfl (by decide)
  · exact (C5_forward_iff_accepted
      { nightscout_url := none, nightscout_api_secret := none }
      (fun _ => Except.ok 200) 1
      (some { value := 120, timestamp := 5, trend_description := "Flat",
              trend_arrow := "F" }) (some 5)).2.2 (by decide)

/-- C6 counterexample: an accepted tick with a configured sink whose
transport fails.  Both a forwarder invocation and the append occur, the
forward outcome is a delivery failure, yet no append event precedes the
forwarder invocation: the LogRecord is appended after the forwarding
attempt, refuting "both are already committed before the forwarding
attempt is made". -/
theorem C6_counterexample :
    tickFailingForward.forwardResult = some ForwardResult.deliveryFailure ∧
    (∃ i : Fin tickFailingForward.events.length,
      isAppendEvent (tickFailingForward.events.get i) = true) ∧
    (∃ j : Fin tickFailingForward.events.length,
      isForwardCall (tickFailingForward.events.get j) = true) ∧
    ¬ appendBeforeForward tickFailingForward.events := by decide

/-- C6 (amended): a Forwarder delivery failure never affects the content of
the tick's LogRecord or the DedupState update — both are fully determined
before the forwarding attempt — although the append of the LogRecord to the
log is executed after the forwarding attempt: the tick's row and new state
are identical under any two transport behaviours. -/
theorem C6_forward_frame (cfg : NSConfig)
    (post1 post2 : HttpRequest → Except String Nat) (ct : Int)
    (fetched : Option Reading) (st : Option Int) :
    (tick cfg post1 ct fetched st).row = (tick cfg post2 ct fetched st).row ∧
    (tick cfg post1 ct fetched st).state = (tick cfg post2 ct fetched st).state := by
  match fetched with
  | none => exact ⟨rfl, rfl⟩
  | some bg =>
      by_cases h : isNewReading bg.timestamp st = true
      · rw [tick_accepted cfg post1 ct bg st h, tick_accepted cfg post2 ct bg st h]
        exact ⟨rfl, rfl⟩
      · rw [tick_rejected cfg post1 ct bg st (by simpa using h),
            tick_rejected cfg post2 ct bg st (by simpa using h)]
        exact ⟨rfl, rfl⟩

theorem writeRun_some_count (rs : List (List String)) :
    ∀ rows, (writeRun (some rows) rs).2 = 0 := by
  induction rs with
  | nil => intro rows; rfl
  | cons r rs ih => intro rows; simp [writeRun, write_to_csv, ih]

/-- C7: Recorder header idempotence: on a call with the file absent, the
header row is written first and then the data row; on a call with the file
present, only the data row is appended; across any sequence of calls on the
same file the header is written at most once (never when the file already
exists). -/
theorem C7_header_idempotent :
    (∀ row, write_to_csv none row = ([CSV_HEADERS, row], true)) ∧
    (∀ rows row, write_to_csv (some rows) row = (rows ++ [row], false)) ∧
    (∀ rows rs, (writeRun (some rows) rs).2 = 0) ∧
    (∀ file rs, (writeRun file rs).2 ≤ 1) := by
  refine ⟨fun row => rfl, fun rows row => rfl,
    fun rows rs => writeRun_some_count rs rows, ?_⟩
  intro file rs
  match file with
  | some rows => simp [writeRun_some_count rs rows]
  | none =>
      match rs with
      | [] => simp [writeRun]
      | r :: rest => simp [writeRun, write_to_csv, writeRun_some_count]

/-- C8: when the sink is configured, `upload_to_nightscout` performs exactly
one POST, to the normalized base URL plus `/api/v1/entries`, with the
`api-secret` and `Content-Type` headers, whose body is the one-element array
containing the entry built from the reading's timestamp, value and trend
arrow with type `"sgv"`. -/
theorem C8_request_shape (cfg : NSConfig)
    (post : HttpRequest → Except String Nat) (v t : Int) (a : String)
    (u s : String) (hu : cfg.nightscout_url = some u)
    (hs : cfg.nightscout_api_secret = some s)
    (hune : u.isEmpty = false) (hsne : s.isEmpty = false) :
    (upload_to_nightscout cfg post v t a).2 =
      [Event.netPost
        { url := rstripSlashes u ++ "/api/v1/entries",
          headers := [("api-secret", s), ("Content-Type", "application/json")],
          body := [{ dateString := t, sgv := v, direction := a, type := "sgv" }] }] := by
  have hfals : (falsyStr cfg.nightscout_url || falsyStr cfg.nightscout_api_secret) = false := by
    simp [falsyStr, hu, hs, hune, hsne]
  unfold upload_to_nightscout
  rw [hfals]
  simp only [Bool.false_eq_true, if_false]
  rw [hu, hs]
  simp only [Option.getD_some, buildUrl]
  split
  · split
    · rfl
    · rfl
  · rfl

/-- C8 witness: a concrete configured upload produces exactly the expected
single POST request. -/
theorem C8_request_shape_witness :
    (upload_to_nightscout
      { nightscout_url := some "https://x", nightscout_api_secret := some "s" }
      (fun _ => Except.ok 200) 120 5 "F").2 =
      [Event.netPost
        { url := rstripSlashes "https://x" ++ "/api/v1/entries",
          headers := [("api-secret", "s"), ("Content-Type", "application/json")],
          body := [{ dateString := 5, sgv := 120, direction := "F", type := "sgv" }] }] :=
  C8_request_shape
    { nightscout_url := some "https://x", nightscout_api_secret := some "s" }
    (fun _ => Except.ok 200) 120 5 "F" "https://x" "s" rfl rfl (by decide) (by decide)

/-- C9: when the sink configuration is absent, every forwarder call is a
no-op returning SkippedNotConfigured with no network action, and an
accepted tick still logs its full LogRecord (its events are exactly the
forwarder invocation and the append, with no POST). -/
theorem C9_skip_when_not_configured (cfg : NSConfig)
    (post : HttpRequest → Except String Nat) (v t : Int) (a : String)
    (ct : Int) (bg : Reading) (st : Option Int)
    (h : cfg.nightscout_url = none ∨ cfg.nightscout_api_secret = none) :
    upload_to_nightscout cfg post v t a = (ForwardResult.skippedNotConfigured, []) ∧
    (isNewReading bg.timestamp st = true →
      (tick cfg post ct (some bg) st).forwardResult =
        some ForwardResult.skippedNotConfigured ∧
      (tick cfg post ct (some bg) st).row =
        { check_timestamp_utc := ct, new_reading_received := true,
          glucose_value := some bg.value, glucose_timestamp := some bg.timestamp,
          trend_description := some bg.trend_description,
          trend_arrow := some bg.trend_arrow } ∧
      (tick cfg post ct (some bg) st).events =
        [Event.forwardCall bg.value bg.timestamp bg.trend_arrow,
         Event.append (tick cfg post ct (some bg) st).row]) := by
  have hfals : (falsyStr cfg.nightscout_url || falsyStr cfg.nightscout_api_secret) = true := by
    rcases h with h | h <;> simp [falsyStr, h]
  have hup : ∀ v2 t2 a2, upload_to_nightscout cfg post v2 t2 a2 =
      (ForwardResult.skippedNotConfigured, []) := by
    intro v2 t2 a2
    unfold upload_to_nightscout
    rw [hfals]
    simp
  refine ⟨hup v t a, fun hacc => ?_⟩
  rw [tick_accepted cfg post ct bg st hacc]
  simp [hup]

/-- C9 witness: with no configuration at all, a concrete upload is a no-op
and a concrete accepted tick still produces its full record with no POST. -/
theorem C9_skip_when_not_configured_witness :
    upload_to_nightscout { nightscout_url := none, nightscout_api_secret := none }
      (fun _ => Except.ok 200) 120 5 "F" =
      (ForwardResult.skippedNotConfigured, []) ∧
    (tick { nightscout_url := none, nightscout_api_secret := none }
      (fun _ => Except.ok 200) 0
      (some { value := 120, timestamp := 5, trend_description := "Flat",
              trend_arrow := "F" }) none).events =
      [Event.forwardCall 120 5 "F",
       Event.append (tick { nightscout_url := none, nightscout_api_secret := none }
        (fun _ => Except.ok 200) 0
        (some { value := 120, timestamp := 5, trend_description := "Flat",
                trend_arrow := "F" }) none).row] := by
  have h := C9_skip_when_not_configured
    { nightscout_url := none, nightscout_api_secret := none }
    (fun _ => Except.ok 200) 120 5 "F" 0
    { value := 120, timestamp := 5, trend_description := "Flat", trend_arrow := "F" }
    none (Or.inl rfl)
  exact ⟨h.1, (h.2 (by decide)).2.2⟩

theorem dropWhile_replicate_slash (p : Char → Bool) (hp : p '/' = true) :
    ∀ (k : Nat) (l : List Char),
      List.dropWhile p (List.replicate k '/' ++ l) = List.dropWhile p l := by
  intro k
  induction k with
  | zero => intro l; simp
  | succ k ih => intro l; simp [List.replicate_succ, List.dropWhile_cons, hp, ih]

theorem rstripSlashes_append_slashes (s : String) (k : Nat) :
    rstripSlashes (s ++ slashes k) = rstripSlashes s := by
  unfold rstripSlashes slashes
  rw [String.data_append]
  simp only [String.data]
  rw [List.reverse_append, List.reverse_replicate,
    dropWhile_replicate_slash (fun c => c == '/') (by decide) k s.data.reverse]

/-- C10: the Forwarder normalizes the configured base URL by stripping all
trailing slashes before appending `/api/v1/entries`: two configured URLs
that differ only in trailing slashes yield the identical request URL. -/
theorem C10_url_normalization (base u1 u2 : String) (k1 k2 : Nat)
    (h1 : u1 = base ++ slashes k1) (h2 : u2 = base ++ slashes k2) :
    buildUrl u1 = buildUrl u2 := by
  rw [h1, h2]
  unfold buildUrl
  rw [rstripSlashes_append_slashes, rstripSlashes_append_slashes]

/-- C10 witness: `"https://x"` and `"https://x//"` give the same request
URL. -/
theorem C10_url_normalization_witness :
    buildUrl "https://x" = buildUrl ("https://x" ++ "//") :=
  C10_url_normalization "https://x" "https://x" ("https://x" ++ "//") 0 2
    (by decide) (by decide)


